import Mathlib

/-!
Verification development for the `payment-service` demo repository:
an in-memory payment HTTP service (`main.go` and its revisions) plus an
OpenTelemetry bootstrap package (`internal/telemetry`).

The embedding follows the most recent revision of the handler code (the
one whose `Payment` struct carries a `Currency` field and whose
`handleCreatePayment` defaults it to "USD"); the earlier revisions differ
only in telemetry instrumentation, which has no effect on the
request/response behaviour modelled here.

Modelling conventions:
* Go `float64` amounts are modelled as `Int`; no code path computes with
  the amount, it is only decoded, stored and re-encoded.
* `json.Decode` of the request body is modelled by an `Option Payment`
  (`none` = parse error, `some p` = the decoded struct, absent fields at
  their Go zero values, i.e. `""`/`0`).
* `time.Now()` is modelled by a `GoTime` record carrying the Unix second
  and the broken-down local calendar time used by `Format(time.RFC3339)`.
* The response body is captured as a `RespBody` value together with a
  renderer mirroring `encoding/json`: a single-entry
  `map[string]string` renders as one JSON object, a struct renders its
  fields in declaration order, and a nil slice renders as `null` (the
  `payments` slice starts nil and is only ever appended to, so the empty
  store is always the nil slice).
-/

/-- The `Payment` struct of the service (revision with a `Currency` field):
json tags `id`, `amount`, `currency`, `status`, `date` in declaration
order. -/
structure Payment where
  id : String
  amount : Int
  currency : String
  status : String
  date : String
  deriving Repr, DecidableEq

/-- Broken-down result of one `time.Now()` call: the Unix second used by
`fmt.Sprintf("pay_%d", time.Now().Unix())` and the calendar fields used
by `time.Now().Format(time.RFC3339)`. `offsetMin` is the local zone
offset in minutes (Go zones are whole minutes). -/
structure GoTime where
  unix : Int
  year : Nat
  month : Nat
  day : Nat
  hour : Nat
  minute : Nat
  second : Nat
  offsetMin : Int
  deriving Repr, DecidableEq

/-- Whether `y` is a leap year (Gregorian rule, as in Go's `time`). -/
def isLeapYear (y : Nat) : Bool :=
  (y % 4 == 0 && y % 100 != 0) || y % 400 == 0

/-- Number of days of month `m` of year `y`. -/
def daysInMonth (y m : Nat) : Nat :=
  if m == 2 then (if isLeapYear y then 29 else 28)
  else if m == 4 || m == 6 || m == 9 || m == 11 then 30
  else 31

/-- The ranges `time.Now()` guarantees for its broken-down fields: a real
calendar date, a 4-digit year, and a zone offset below 24 hours. -/
def GoTime.Valid (t : GoTime) : Prop :=
  t.year ≤ 9999 ∧
  1 ≤ t.month ∧ t.month ≤ 12 ∧
  1 ≤ t.day ∧ t.day ≤ daysInMonth t.year t.month ∧
  t.hour ≤ 23 ∧ t.minute ≤ 59 ∧ t.second ≤ 59 ∧
  t.offsetMin.natAbs ≤ 1439

instance (t : GoTime) : Decidable t.Valid := by
  unfold GoTime.Valid; infer_instance

/-- The character for decimal digit `d` (meaningful for `d < 10`). -/
def digitChar (d : Nat) : Char := Char.ofNat (48 + d)

/-- Zero-padded two-digit decimal rendering of `n < 100`, as Go's
`Format` produces for the month/day/hour/minute/second fields of the
`time.RFC3339` layout. -/
def pad2 (n : Nat) : String := ⟨[digitChar (n / 10), digitChar (n % 10)]⟩

/-- Zero-padded four-digit decimal rendering of `n ≤ 9999`, as Go's
`Format` produces for the `2006` year field. -/
def pad4 (n : Nat) : String :=
  ⟨[digitChar (n / 1000), digitChar (n / 100 % 10),
    digitChar (n / 10 % 10), digitChar (n % 10)]⟩

/-- The `Z07:00` part of Go's `time.RFC3339` layout: `Z` for a zero
offset, otherwise sign, hours and minutes of the offset. -/
def offsetPart (o : Int) : String :=
  if o = 0 then "Z"
  else (if 0 < o then "+" else "-") ++ pad2 (o.natAbs / 60) ++ ":" ++ pad2 (o.natAbs % 60)

/-- Go `time.Now().Format(time.RFC3339)`: layout `2006-01-02T15:04:05Z07:00`
applied to the broken-down time. -/
def formatRFC3339 (t : GoTime) : String :=
  pad4 t.year ++ "-" ++ pad2 t.month ++ "-" ++ pad2 t.day ++ "T" ++
    pad2 t.hour ++ ":" ++ pad2 t.minute ++ ":" ++ pad2 t.second ++
    offsetPart t.offsetMin

/-- Decimal value of a digit character. -/
def digVal (c : Char) : Nat := c.toNat - 48

/-- Two-digit decimal value. -/
def val2 (a b : Char) : Nat := 10 * digVal a + digVal b

/-- RFC 3339 `time-offset`: `Z` or `("+" / "-") time-hour ":" time-minute`. -/
def checkOffset : List Char → Bool
  | ['Z'] => true
  | [s, h1, h2, ':', m1, m2] =>
    (s == '+' || s == '-') &&
    h1.isDigit && h2.isDigit && m1.isDigit && m2.isDigit &&
    val2 h1 h2 ≤ 23 && val2 m1 m2 ≤ 59
  | _ => false

/-- RFC 3339 `date-time` (without the optional `time-secfrac`, which Go's
`time.RFC3339` layout never emits): `full-date "T" full-time` with all
numeric fields in range and the day valid for the month and year. A
string this checker accepts is a valid RFC 3339 timestamp. -/
def checkDateTime : List Char → Bool
  | y1 :: y2 :: y3 :: y4 :: '-' :: mo1 :: mo2 :: '-' :: d1 :: d2 :: 'T' ::
      h1 :: h2 :: ':' :: mi1 :: mi2 :: ':' :: s1 :: s2 :: rest =>
    y1.isDigit && y2.isDigit && y3.isDigit && y4.isDigit &&
    mo1.isDigit && mo2.isDigit && d1.isDigit && d2.isDigit &&
    h1.isDigit && h2.isDigit && mi1.isDigit && mi2.isDigit &&
    s1.isDigit && s2.isDigit &&
    1 ≤ val2 mo1 mo2 && val2 mo1 mo2 ≤ 12 &&
    1 ≤ val2 d1 d2 &&
    val2 d1 d2 ≤ daysInMonth
      (1000 * digVal y1 + 100 * digVal y2 + 10 * digVal y3 + digVal y4)
      (val2 mo1 mo2) &&
    val2 h1 h2 ≤ 23 && val2 mi1 mi2 ≤ 59 && val2 s1 s2 ≤ 59 &&
    checkOffset rest
  | _ => false

/-- Validity of a string as an RFC 3339 timestamp. -/
def isValidRFC3339 (s : String) : Bool := checkDateTime s.data

/-- The server-side stamping `handleCreatePayment` performs on a decoded
body: default `Currency` to `"USD"` when empty, then set `ID` from the
Unix second, `Date` from `Format(time.RFC3339)`, and `Status` to
`"pending"`. -/
def stampPayment (p : Payment) (t : GoTime) : Payment :=
  { p with
    currency := if p.currency = "" then "USD" else p.currency
    id := "pay_" ++ toString t.unix
    date := formatRFC3339 t
    status := "pending" }

/-- A JSON value written to the response body: a one-entry
`map[string]string`, a single `Payment` struct, or the `payments` slice. -/
inductive RespBody where
  | obj1 (key value : String)
  | payment (p : Payment)
  | payments (ps : List Payment)
  deriving Repr, DecidableEq

/-- The `encoding/json` rendering of a `Payment` struct: fields in
declaration order under their json tags (string fields assumed free of
characters needing escapes, as the service produces). -/
def renderPayment (p : Payment) : String :=
  "\x7b\"id\":\"" ++ p.id ++ "\",\"amount\":" ++ toString p.amount ++
    ",\"currency\":\"" ++ p.currency ++ "\",\"status\":\"" ++ p.status ++
    "\",\"date\":\"" ++ p.date ++ "\"\x7d"

/-- The `encoding/json` rendering of the `payments` slice. The slice is
declared `var payments []Payment` and only ever appended to, so whenever
it is empty it is the nil slice, which `encoding/json` encodes as
`null`, not `[]`. -/
def renderPayments : List Payment → String
  | [] => "null"
  | ps => "[" ++ String.intercalate "," (ps.map renderPayment) ++ "]"

/-- The `encoding/json` rendering of each response body shape. -/
def renderBody : RespBody → String
  | .obj1 k v => "\x7b\"" ++ k ++ "\":\"" ++ v ++ "\"\x7d"
  | .payment p => renderPayment p
  | .payments ps => renderPayments ps

/-- One HTTP request to `/api/payment` as the handlers observe it: the
method string, the `json.Decode` result of the body (`none` = parse
error; only consulted on POST), and the `time.Now()` of the request. -/
structure Request where
  method : String
  body : Option Payment
  now : GoTime

/-- Status code and body written by a handler. -/
abbrev Response := Nat × RespBody

/-- Function `handleGetPayments`: write 200 and encode the `payments` slice. -/
def handleGetPayments (st : List Payment) : Response × List Payment :=
  ((200, .payments st), st)

/-- Function `handleCreatePayment`: on a decode error write 400 and
`{"error": "Invalid JSON"}`; otherwise stamp the server fields, append
to `payments`, write 201 and encode the stored record. -/
def handleCreatePayment (body : Option Payment) (now : GoTime)
    (st : List Payment) : Response × List Payment :=
  match body with
  | none => ((400, .obj1 "error" "Invalid JSON"), st)
  | some p =>
    let p' := stampPayment p now
    ((201, .payment p'), st ++ [p'])

/-- Function `paymentHandler`: dispatch on the method string; anything other than
GET or POST gets 405 and `{"error": "Method not allowed"}`. -/
def paymentHandler (r : Request) (st : List Payment) :
    Response × List Payment :=
  if r.method = "GET" then handleGetPayments st
  else if r.method = "POST" then handleCreatePayment r.body r.now st
  else ((405, .obj1 "error" "Method not allowed"), st)

/-!
Embedding of the `internal/telemetry` package. The OpenTelemetry/zap
library objects the package merely passes around are modelled by small
inductive value types; the external calls the bootstrap makes
(`os.ReadFile`, `os.ExpandEnv`, `otelconf.ParseYAML`, `otelconf.NewSDK`)
are supplied by an `Env` of oracles, and each call is recorded in an
event trace so that the data flow into the YAML parser is observable.
The `otel.Set*`/`global.Set*` registrations mutate external library
state that no accessor of this package reads back on the paths the
claims concern; they are not modelled.
-/

namespace Telemetry

/-- The constant `Scope = "payment-service"`. -/
def Scope : String := "payment-service"

/-- A `context.Context` value (opaque). -/
structure Ctx where
  id : Nat
  deriving Repr, DecidableEq

/-- Errors `ProvidersFromConfig` can return, tagged by origin. -/
inductive GoErr where
  | readErr (msg : String)
  | yamlErr (msg : String)
  | sdkErr (msg : String)
  deriving Repr, DecidableEq

/-- A concrete (non-nil) `trace.TracerProvider` obtained from an SDK. -/
inductive TracerProviderV where
  | fromSDK (tag : Nat)
  deriving Repr, DecidableEq

/-- A concrete (non-nil) `metric.MeterProvider` obtained from an SDK. -/
inductive MeterProviderV where
  | fromSDK (tag : Nat)
  deriving Repr, DecidableEq

/-- A concrete (non-nil) `log.LoggerProvider` obtained from an SDK. -/
inductive LoggerProviderV where
  | fromSDK (tag : Nat)
  deriving Repr, DecidableEq

/-- A concrete `*zap.Logger` value. -/
inductive ZapLogger where
  | production
  | development
  | teeCore (scope : String)
  deriving Repr, DecidableEq

/-- A `trace.Tracer` as the accessor returns it: either
`provider.Tracer(scope)` on the stored provider, or the library default
`otel.Tracer(scope)`. -/
inductive TracerInst where
  | ofProvider (p : TracerProviderV) (scope : String)
  | otelGlobal (scope : String)
  deriving Repr, DecidableEq

/-- A `metric.Meter`, analogous to `TracerInst`. -/
inductive MeterInst where
  | ofProvider (p : MeterProviderV) (scope : String)
  | otelGlobal (scope : String)
  deriving Repr, DecidableEq

/-- The `Providers` struct. Interface and pointer fields can be Go-nil,
modelled as `none`. -/
structure Providers where
  TracerProvider : Option TracerProviderV
  MeterProvider : Option MeterProviderV
  LoggerProvider : Option LoggerProviderV
  Logger : Option ZapLogger
  Closer : Ctx → Option GoErr

/-- What `otelconf.NewSDK` yields on success: non-nil providers and a
shutdown function. -/
structure SDK where
  tracerProvider : TracerProviderV
  meterProvider : MeterProviderV
  loggerProvider : LoggerProviderV
  shutdown : Ctx → Option GoErr

/-- The parsed `OpenTelemetryConfiguration` object (opaque to this
package). -/
structure OtelConfig where
  tag : Nat
  deriving Repr, DecidableEq

/-- Result of `os.ReadFile`: contents, an error satisfying
`errors.Is(err, os.ErrNotExist)`, or any other error. -/
inductive ReadResult where
  | ok (contents : String)
  | notExist
  | otherErr (msg : String)
  deriving Repr, DecidableEq

/-- The external calls `ProvidersFromConfig` makes, as oracles:
the filesystem, `os.ExpandEnv` under the ambient environment, the YAML
parser and the SDK constructor. -/
structure Env where
  readFile : String → ReadResult
  expandEnv : String → String
  parseYAML : String → Except String OtelConfig
  newSDK : OtelConfig → Except String SDK

/-- Trace of the external calls made, in order. -/
inductive Event where
  | readFile (path : String)
  | parseYAML (input : String)
  | newSDK (conf : OtelConfig)
  deriving Repr, DecidableEq

/-- The panic a Go method call on a nil interface value raises. -/
inductive PanicKind where
  | nilInterfaceCall
  deriving Repr, DecidableEq

/-- The fallback bundle built when the config file does not exist:
explicit nil tracer/meter providers, a fresh production logger, a no-op
closer, and (by Go zero value) a nil logger provider. -/
def fallbackProviders : Providers :=
  { TracerProvider := none
    MeterProvider := none
    LoggerProvider := none
    Logger := some .production
    Closer := fun _ => none }

/-- Function `ProvidersFromConfig`: read the file (missing file → fallback
bundle, other read error → error), expand environment variables in the
contents, parse the YAML, build the SDK, and assemble the bundle. Also
returns the trace of external calls. -/
def ProvidersFromConfig (env : Env) (scope version cfgFile : String) :
    Except GoErr Providers × List Event :=
  match env.readFile cfgFile with
  | .notExist => (.ok fallbackProviders, [.readFile cfgFile])
  | .otherErr m => (.error (.readErr m), [.readFile cfgFile])
  | .ok raw =>
    let expanded := env.expandEnv raw
    match env.parseYAML expanded with
    | .error m =>
      (.error (.yamlErr m), [.readFile cfgFile, .parseYAML expanded])
    | .ok conf =>
      match env.newSDK conf with
      | .error m =>
        (.error (.sdkErr m),
         [.readFile cfgFile, .parseYAML expanded, .newSDK conf])
      | .ok sdk =>
        (.ok { TracerProvider := some sdk.tracerProvider
               MeterProvider := some sdk.meterProvider
               LoggerProvider := some sdk.loggerProvider
               Logger := some (.teeCore scope)
               Closer := sdk.shutdown },
         [.readFile cfgFile, .parseYAML expanded, .newSDK conf])

/-- Function `Setup`: build providers from the config, store them in the package
global `gProviders`, and return the closer. On error the global is left
unchanged. Returns (result, new `gProviders`, call trace). -/
def Setup (env : Env) (version cfgFile : String) (g : Option Providers) :
    Except GoErr (Ctx → Option GoErr) × Option Providers × List Event :=
  match ProvidersFromConfig env Scope version cfgFile with
  | (.error e, evs) => (.error e, g, evs)
  | (.ok ps, evs) => (.ok ps.Closer, some ps, evs)

/-- Accessor `Logger()`: a fresh development logger when `gProviders` is nil,
otherwise the stored `*zap.Logger` pointer (returned as-is, no
dereference). -/
def Logger : Option Providers → Option ZapLogger
  | none => some .development
  | some ps => ps.Logger

/-- Accessor `Tracer()`: `otel.Tracer(Scope)` when `gProviders` is nil, otherwise
`gProviders.TracerProvider.Tracer(Scope)` — a method call that panics
when the stored interface value is nil. -/
def Tracer : Option Providers → Except PanicKind TracerInst
  | none => .ok (.otelGlobal Scope)
  | some ps =>
    match ps.TracerProvider with
    | none => .error .nilInterfaceCall
    | some tp => .ok (.ofProvider tp Scope)

/-- Accessor `Meter()`: `otel.Meter(Scope)` when `gProviders` is nil, otherwise
`gProviders.MeterProvider.Meter(Scope)` — a method call that panics when
the stored interface value is nil. -/
def Meter : Option Providers → Except PanicKind MeterInst
  | none => .ok (.otelGlobal Scope)
  | some ps =>
    match ps.MeterProvider with
    | none => .error .nilInterfaceCall
    | some mp => .ok (.ofProvider mp Scope)

/-- How far `main` gets before `http.ListenAndServe`. -/
inductive MainOutcome where
  | panicked
  | serving (g : Option Providers)

/-- The startup sequence of `main`: `telemetry.Setup` (an error is
`panic(err)`), then `telemetry.Tracer().Start(...)` — a call that turns
a nil stored provider into a runtime panic — then serve. -/
def mainStartup (env : Env) : MainOutcome :=
  match Setup env "1.0.0" "local/otel.yaml" none with
  | (.error _, _, _) => .panicked
  | (.ok _, g, _) =>
    match Tracer g with
    | .error _ => .panicked
    | .ok _ => .serving g

end Telemetry

/-- The payment store after serving a sequence of requests, starting
from store `st`: fold of `paymentHandler`'s state component. -/
def runRequests (rs : List Request) (st : List Payment) : List Payment :=
  rs.foldl (fun s r => (paymentHandler r s).2) st

/-- The decoded bodies (with their request times) of the successful
POSTs of a request sequence: those whose method is POST and whose body
parses. -/
def successfulPostBodies (rs : List Request) : List (Payment × GoTime) :=
  rs.filterMap fun r =>
    if r.method = "POST" then r.body.map (fun p => (p, r.now)) else none

/-- Whether an `Except` is a success. -/
def exceptOk {ε α : Type} : Except ε α → Bool
  | .ok _ => true
  | .error _ => false

/-- A concrete request time for concrete evaluations:
2023-11-14T22:13:20Z, Unix second 1700000000. -/
def sampleTime : GoTime :=
  { unix := 1700000000, year := 2023, month := 11, day := 14,
    hour := 22, minute := 13, second := 20, offsetMin := 0 }

/-- A concrete decoded request body (only `amount` supplied). -/
def samplePayment : Payment :=
  { id := "", amount := 100, currency := "", status := "", date := "" }

/-- Environment in which the config file does not exist. -/
def Telemetry.envMissing : Telemetry.Env :=
  { readFile := fun _ => .notExist
    expandEnv := id
    parseYAML := fun _ => .error "unreached"
    newSDK := fun _ => .error "unreached" }

/-- Environment in which the config file exists but its YAML is
malformed. -/
def Telemetry.envParseFail : Telemetry.Env :=
  { readFile := fun _ => .ok "key: $VALUE"
    expandEnv := fun s => s ++ "-expanded"
    parseYAML := fun _ => .error "yaml: unmarshal error"
    newSDK := fun _ => .error "unreached" }

/-- Environment in which the YAML parses but SDK construction fails. -/
def Telemetry.envSDKFail : Telemetry.Env :=
  { readFile := fun _ => .ok "exporter: bogus"
    expandEnv := id
    parseYAML := fun _ => .ok { tag := 7 }
    newSDK := fun _ => .error "no such exporter" }

/-- Environment in which reading the config file fails with an error
other than not-exist. -/
def Telemetry.envReadFail : Telemetry.Env :=
  { readFile := fun _ => .otherErr "permission denied"
    expandEnv := id
    parseYAML := fun _ => .error "unreached"
    newSDK := fun _ => .error "unreached" }

/-! ### Helper lemmas: RFC 3339 validity of Go's `Format(time.RFC3339)` -/

theorem isDigit_digitChar (d : Nat) (h : d < 10) :
    (digitChar d).isDigit = true := by
  interval_cases d <;> decide

theorem digVal_digitChar (d : Nat) (h : d < 10) :
    digVal (digitChar d) = d := by
  interval_cases d <;> decide

theorem val2_pad (n : Nat) (h : n < 100) :
    val2 (digitChar (n / 10)) (digitChar (n % 10)) = n := by
  unfold val2
  rw [digVal_digitChar _ (by omega), digVal_digitChar _ (by omega)]
  omega

theorem year_digits (y : Nat) (h : y ≤ 9999) :
    1000 * digVal (digitChar (y / 1000)) + 100 * digVal (digitChar (y / 100 % 10)) +
      10 * digVal (digitChar (y / 10 % 10)) + digVal (digitChar (y % 10)) = y := by
  rw [digVal_digitChar _ (by omega), digVal_digitChar _ (by omega),
    digVal_digitChar _ (by omega), digVal_digitChar _ (by omega)]
  omega

theorem daysInMonth_le (y m : Nat) : daysInMonth y m ≤ 31 := by
  unfold daysInMonth
  split
  · split <;> omega
  · split <;> omega

theorem checkOffset_offsetPart (o : Int) (h : o.natAbs ≤ 1439) :
    checkOffset (offsetPart o).data = true := by
  unfold offsetPart
  by_cases h0 : o = 0
  · rw [if_pos h0]
    decide
  · rw [if_neg h0]
    by_cases hpos : 0 < o
    · rw [if_pos hpos]
      have hdata : (("+" : String) ++ pad2 (o.natAbs / 60) ++ ":" ++ pad2 (o.natAbs % 60)).data
          = ['+', digitChar (o.natAbs / 60 / 10), digitChar (o.natAbs / 60 % 10), ':',
             digitChar (o.natAbs % 60 / 10), digitChar (o.natAbs % 60 % 10)] := rfl
      rw [hdata]
      simp only [checkOffset]
      rw [val2_pad _ (by omega), val2_pad _ (by omega),
        isDigit_digitChar _ (by omega), isDigit_digitChar _ (by omega),
        isDigit_digitChar _ (by omega), isDigit_digitChar _ (by omega)]
      simp only [Bool.and_eq_true, Bool.or_eq_true, beq_iff_eq, decide_eq_true_eq,
        and_true, true_and]
      exact ⟨⟨Or.inl trivial, by omega⟩, by omega⟩
    · rw [if_neg hpos]
      have hdata : (("-" : String) ++ pad2 (o.natAbs / 60) ++ ":" ++ pad2 (o.natAbs % 60)).data
          = ['-', digitChar (o.natAbs / 60 / 10), digitChar (o.natAbs / 60 % 10), ':',
             digitChar (o.natAbs % 60 / 10), digitChar (o.natAbs % 60 % 10)] := rfl
      rw [hdata]
      simp only [checkOffset]
      rw [val2_pad _ (by omega), val2_pad _ (by omega),
        isDigit_digitChar _ (by omega), isDigit_digitChar _ (by omega),
        isDigit_digitChar _ (by omega), isDigit_digitChar _ (by omega)]
      simp only [Bool.and_eq_true, Bool.or_eq_true, beq_iff_eq, decide_eq_true_eq,
        and_true, true_and]
      exact ⟨⟨Or.inr trivial, by omega⟩, by omega⟩

theorem isValidRFC3339_formatRFC3339 (t : GoTime) (h : t.Valid) :
    isValidRFC3339 (formatRFC3339 t) = true := by
  obtain ⟨hy, hm1, hm2, hd1, hd2, hh, hmi, hs, ho⟩ := h
  have hday : t.day < 100 := by
    have := daysInMonth_le t.year t.month
    omega
  have hdata : (formatRFC3339 t).data =
      digitChar (t.year / 1000) :: digitChar (t.year / 100 % 10) ::
      digitChar (t.year / 10 % 10) :: digitChar (t.year % 10) :: '-' ::
      digitChar (t.month / 10) :: digitChar (t.month % 10) :: '-' ::
      digitChar (t.day / 10) :: digitChar (t.day % 10) :: 'T' ::
      digitChar (t.hour / 10) :: digitChar (t.hour % 10) :: ':' ::
      digitChar (t.minute / 10) :: digitChar (t.minute % 10) :: ':' ::
      digitChar (t.second / 10) :: digitChar (t.second % 10) ::
      (offsetPart t.offsetMin).data := by
    rw [formatRFC3339, String.data_append]
    rfl
  rw [isValidRFC3339, hdata]
  simp only [checkDateTime]
  rw [year_digits t.year hy, val2_pad t.month (by omega), val2_pad t.day (by omega),
    val2_pad t.hour (by omega), val2_pad t.minute (by omega), val2_pad t.second (by omega),
    checkOffset_offsetPart t.offsetMin ho,
    isDigit_digitChar _ (by omega), isDigit_digitChar _ (by omega),
    isDigit_digitChar _ (by omega), isDigit_digitChar _ (by omega),
    isDigit_digitChar _ (by omega), isDigit_digitChar _ (by omega),
    isDigit_digitChar _ (by omega), isDigit_digitChar _ (by omega),
    isDigit_digitChar _ (by omega), isDigit_digitChar _ (by omega),
    isDigit_digitChar _ (by omega), isDigit_digitChar _ (by omega),
    isDigit_digitChar _ (by omega), isDigit_digitChar _ (by omega)]
  simp only [Bool.true_and, Bool.and_true, Bool.and_eq_true, decide_eq_true_eq]
  tauto

/-! ### Claim theorems: payment handlers -/

/-- C1: every POST whose body parses as JSON returns 201 with the stored
record appended to the store; the record has a non-empty id, status
"pending", the client currency when non-empty and "USD" otherwise, and a
valid RFC 3339 date (given that `time.Now()` yields a well-formed
broken-down time). -/
theorem claim_C1 (p : Payment) (t : GoTime) (st : List Payment) (h : t.Valid) :
    (handleCreatePayment (some p) t st).1.1 = 201 ∧
    (handleCreatePayment (some p) t st).2 = st ++ [stampPayment p t] ∧
    (handleCreatePayment (some p) t st).1.2 = .payment (stampPayment p t) ∧
    (stampPayment p t).id ≠ "" ∧
    (stampPayment p t).status = "pending" ∧
    (stampPayment p t).currency = (if p.currency = "" then "USD" else p.currency) ∧
    isValidRFC3339 (stampPayment p t).date = true := by
  refine ⟨rfl, rfl, rfl, ?_, rfl, rfl, ?_⟩
  · intro hid
    have hid' : ("pay_" ++ toString t.unix : String) = "" := hid
    have hlen := congrArg String.length hid'
    rw [String.length_append] at hlen
    have h4 : ("pay_" : String).length = 4 := rfl
    have h0 : ("" : String).length = 0 := rfl
    omega
  · exact isValidRFC3339_formatRFC3339 t h

/-- C1 witness at a concrete input. -/
theorem claim_C1_witness :
    sampleTime.Valid ∧
    isValidRFC3339 (stampPayment samplePayment sampleTime).date = true :=
  ⟨by decide, (claim_C1 samplePayment sampleTime [] (by decide)).2.2.2.2.2.2⟩

/-- C2 as stated is false: on the empty store a GET does return 200, but
`encoding/json` encodes the nil `payments` slice as `null`, not `[]`. -/
theorem claim_C2_counterexample :
    (paymentHandler { method := "GET", body := none, now := sampleTime } []).1.1 = 200 ∧
    ¬ (renderBody (paymentHandler { method := "GET", body := none, now := sampleTime } []).1.2
        = "[]") := by
  constructor
  · rfl
  · decide

/-- C2 amended: a GET on the empty payment store returns status 200 and
the JSON body `null` (the nil slice encoding). -/
theorem claim_C2 (b : Option Payment) (t : GoTime) :
    paymentHandler { method := "GET", body := b, now := t } [] =
      ((200, RespBody.payments []), []) ∧
    renderBody (paymentHandler { method := "GET", body := b, now := t } []).1.2 = "null" :=
  ⟨rfl, rfl⟩

/-- C4: a POST answers 400 exactly when the body fails to parse, in
which case the payload is literally the `Invalid JSON` error object;
every body that parses is accepted with 201 — no other validation. -/
theorem claim_C4 (b : Option Payment) (t : GoTime) (st : List Payment) :
    ((handleCreatePayment b t st).1.1 = 400 ↔ b = none) ∧
    (b = none →
      handleCreatePayment b t st = ((400, .obj1 "error" "Invalid JSON"), st) ∧
      renderBody (handleCreatePayment b t st).1.2 = "\x7b\"error\":\"Invalid JSON\"\x7d") ∧
    (∀ p, b = some p → (handleCreatePayment b t st).1.1 = 201) := by
  cases b with
  | none =>
    refine ⟨?_, ?_, ?_⟩
    · simp [handleCreatePayment]
    · exact fun _ => ⟨rfl, rfl⟩
    · exact fun p hp => nomatch hp
  | some p =>
    refine ⟨?_, ?_, ?_⟩
    · simp [handleCreatePayment]
    · exact fun hn => nomatch hn
    · exact fun q hq => rfl

/-- C4 witness at a concrete input. -/
theorem claim_C4_witness :
    handleCreatePayment none sampleTime [] = ((400, .obj1 "error" "Invalid JSON"), []) :=
  ((claim_C4 none sampleTime []).2.1 rfl).1

/-- C6: any method other than GET and POST is answered 405 with the
literal `Method not allowed` error object, and the store is untouched. -/
theorem claim_C6 (m : String) (hg : m ≠ "GET") (hp : m ≠ "POST")
    (b : Option Payment) (t : GoTime) (st : List Payment) :
    paymentHandler { method := m, body := b, now := t } st =
      ((405, .obj1 "error" "Method not allowed"), st) ∧
    renderBody (paymentHandler { method := m, body := b, now := t } st).1.2 =
      "\x7b\"error\":\"Method not allowed\"\x7d" := by
  have h1 : paymentHandler { method := m, body := b, now := t } st =
      ((405, .obj1 "error" "Method not allowed"), st) := by
    simp [paymentHandler, hg, hp]
  exact ⟨h1, by rw [h1]; rfl⟩

/-- C6 witness at a concrete input. -/
theorem claim_C6_witness :
    paymentHandler { method := "DELETE", body := none, now := sampleTime } [] =
      ((405, RespBody.obj1 "error" "Method not allowed"), []) :=
  (claim_C6 "DELETE" (by decide) (by decide) none sampleTime []).1

/-- C7: each request either leaves the store unchanged or appends
exactly one record at its end; a GET never changes it, and a POST whose
body fails to parse answers 400 with the store unchanged. -/
theorem claim_C7 (r : Request) (st : List Payment) :
    ((paymentHandler r st).2 = st ∨ ∃ p, (paymentHandler r st).2 = st ++ [p]) ∧
    (r.method = "GET" → (paymentHandler r st).2 = st) ∧
    (r.method = "POST" → r.body = none →
      (paymentHandler r st).1.1 = 400 ∧ (paymentHandler r st).2 = st) := by
  obtain ⟨m, b, t⟩ := r
  by_cases hg : m = "GET"
  · subst hg
    exact ⟨Or.inl rfl, fun _ => rfl,
      fun hpm => absurd hpm (show ¬ ("GET" : String) = "POST" by decide)⟩
  · by_cases hp : m = "POST"
    · subst hp
      cases b with
      | none =>
        refine ⟨Or.inl ?_,
          fun hgm => absurd hgm (show ¬ ("POST" : String) = "GET" by decide),
          fun _ _ => ⟨?_, ?_⟩⟩ <;> rfl
      | some p =>
        exact ⟨Or.inr ⟨stampPayment p t, rfl⟩,
          fun hgm => absurd hgm (show ¬ ("POST" : String) = "GET" by decide),
          fun _ hbn => nomatch hbn⟩
    · have h1 : (paymentHandler { method := m, body := b, now := t } st).2 = st := by
        simp [paymentHandler, hg, hp]
      exact ⟨Or.inl h1, fun hgm => absurd hgm hg, fun hpm => absurd hpm hp⟩

/-- C7 witness at a concrete input. -/
theorem claim_C7_witness :
    (paymentHandler { method := "GET", body := none, now := sampleTime } []).2 = [] :=
  (claim_C7 { method := "GET", body := none, now := sampleTime } []).2.1 rfl

theorem runRequests_cons (r : Request) (rs : List Request) (st : List Payment) :
    runRequests (r :: rs) st = runRequests rs ((paymentHandler r st).2) := rfl

theorem runRequests_eq (rs : List Request) : ∀ st : List Payment,
    runRequests rs st =
      st ++ (successfulPostBodies rs).map (fun pt => stampPayment pt.1 pt.2) := by
  induction rs with
  | nil => intro st; simp [runRequests, successfulPostBodies]
  | cons r rs ih =>
    intro st
    obtain ⟨m, b, t⟩ := r
    rw [runRequests_cons]
    by_cases hp : m = "POST"
    · subst hp
      cases b with
      | none =>
        rw [ih]
        simp [successfulPostBodies, List.filterMap_cons, paymentHandler, handleCreatePayment]
      | some p =>
        rw [ih]
        simp [successfulPostBodies, List.filterMap_cons, paymentHandler, handleCreatePayment]
    · by_cases hg : m = "GET"
      · subst hg
        rw [ih]
        simp [successfulPostBodies, List.filterMap_cons, paymentHandler, handleGetPayments]
      · rw [ih]
        simp [successfulPostBodies, List.filterMap_cons, paymentHandler, hg, hp]

/-- C5: after any request sequence containing N successful POSTs
(starting from the empty store), the store holds exactly the N stamped
records of those POSTs in order, and a GET returns 200 with exactly that
array. -/
theorem claim_C5 (rs : List Request) (b : Option Payment) (t : GoTime) :
    runRequests rs [] =
      (successfulPostBodies rs).map (fun pt => stampPayment pt.1 pt.2) ∧
    (runRequests rs []).length = (successfulPostBodies rs).length ∧
    paymentHandler { method := "GET", body := b, now := t } (runRequests rs []) =
      ((200, RespBody.payments (runRequests rs [])), runRequests rs []) := by
  have h := runRequests_eq rs []
  rw [List.nil_append] at h
  exact ⟨h, by rw [h, List.length_map], rfl⟩

/-! ### Claim theorems: telemetry bootstrap -/

theorem providersFromConfig_notExist (env : Telemetry.Env) (sc ver path : String)
    (h : env.readFile path = .notExist) :
    Telemetry.ProvidersFromConfig env sc ver path =
      (.ok Telemetry.fallbackProviders, [.readFile path]) := by
  unfold Telemetry.ProvidersFromConfig
  rw [h]

theorem setup_notExist (env : Telemetry.Env) (ver path : String)
    (g : Option Telemetry.Providers) (h : env.readFile path = .notExist) :
    Telemetry.Setup env ver path g =
      (.ok Telemetry.fallbackProviders.Closer, some Telemetry.fallbackProviders,
       [.readFile path]) := by
  unfold Telemetry.Setup
  rw [providersFromConfig_notExist env Telemetry.Scope ver path h]

/-- C8: when the config file does not exist, `Setup` succeeds, stores
the fallback bundle, whose logger is a working (non-nil) production
logger, and the returned shutdown function returns nil for every
context. -/
theorem claim_C8 (env : Telemetry.Env) (sc ver path : String)
    (h : env.readFile path = .notExist) :
    (Telemetry.ProvidersFromConfig env sc ver path).1 = .ok Telemetry.fallbackProviders ∧
    exceptOk (Telemetry.Setup env ver path none).1 = true ∧
    (Telemetry.Setup env ver path none).2.1 = some Telemetry.fallbackProviders ∧
    Telemetry.fallbackProviders.Logger = some .production ∧
    Telemetry.Logger (Telemetry.Setup env ver path none).2.1 = some .production ∧
    (∀ cl, (Telemetry.Setup env ver path none).1 = .ok cl →
      ∀ ctx, cl ctx = none) := by
  have hs := setup_notExist env ver path none h
  refine ⟨by rw [providersFromConfig_notExist env sc ver path h], by rw [hs]; rfl,
    by rw [hs], rfl, by rw [hs]; rfl, ?_⟩
  intro cl hcl ctx
  rw [hs] at hcl
  injection hcl with h2
  rw [← h2]
  rfl

/-- C8 witness at a concrete environment. -/
theorem claim_C8_witness :
    (Telemetry.ProvidersFromConfig Telemetry.envMissing "payment-service" "1.0.0"
        "local/otel.yaml").1 = .ok Telemetry.fallbackProviders ∧
    Telemetry.fallbackProviders.Logger = some .production :=
  ⟨(claim_C8 Telemetry.envMissing "payment-service" "1.0.0" "local/otel.yaml" rfl).1,
   (claim_C8 Telemetry.envMissing "payment-service" "1.0.0" "local/otel.yaml" rfl).2.2.2.1⟩

/-- C3 fails on the code: after the missing-config fallback `Setup`
(which succeeds), `gProviders` holds a bundle whose tracer and meter
provider interface fields are nil, so `Tracer()` and `Meter()` both make
a method call on a nil interface — a runtime panic — and `main` panics
at `telemetry.Tracer().Start` before serving. -/
theorem claim_C3 (env : Telemetry.Env) (ver path : String)
    (h : env.readFile path = .notExist) :
    exceptOk (Telemetry.Setup env ver path none).1 = true ∧
    Telemetry.Tracer (Telemetry.Setup env ver path none).2.1 = .error .nilInterfaceCall ∧
    Telemetry.Meter (Telemetry.Setup env ver path none).2.1 = .error .nilInterfaceCall ∧
    (env.readFile "local/otel.yaml" = .notExist →
      Telemetry.mainStartup env = .panicked) := by
  have hs := setup_notExist env ver path none h
  refine ⟨by rw [hs]; rfl, by rw [hs]; rfl, by rw [hs]; rfl, ?_⟩
  intro hmain
  unfold Telemetry.mainStartup
  rw [setup_notExist env "1.0.0" "local/otel.yaml" none hmain]
  rfl

/-- C3 witness: the failing input evaluated concretely. -/
theorem claim_C3_witness :
    Telemetry.Tracer
        (Telemetry.Setup Telemetry.envMissing "1.0.0" "local/otel.yaml" none).2.1
      = .error .nilInterfaceCall ∧
    Telemetry.mainStartup Telemetry.envMissing = .panicked :=
  ⟨(claim_C3 Telemetry.envMissing "1.0.0" "local/otel.yaml" rfl).2.1,
   (claim_C3 Telemetry.envMissing "1.0.0" "local/otel.yaml" rfl).2.2.2 rfl⟩

theorem providersFromConfig_parseErr (env : Telemetry.Env) (sc ver path raw m : String)
    (h1 : env.readFile path = .ok raw)
    (h2 : env.parseYAML (env.expandEnv raw) = .error m) :
    Telemetry.ProvidersFromConfig env sc ver path =
      (.error (.yamlErr m), [.readFile path, .parseYAML (env.expandEnv raw)]) := by
  unfold Telemetry.ProvidersFromConfig
  rw [h1]
  simp only [h2]

theorem providersFromConfig_sdkErr (env : Telemetry.Env) (sc ver path raw m : String)
    (conf : Telemetry.OtelConfig)
    (h1 : env.readFile path = .ok raw)
    (h2 : env.parseYAML (env.expandEnv raw) = .ok conf)
    (h3 : env.newSDK conf = .error m) :
    Telemetry.ProvidersFromConfig env sc ver path =
      (.error (.sdkErr m),
       [.readFile path, .parseYAML (env.expandEnv raw), .newSDK conf]) := by
  unfold Telemetry.ProvidersFromConfig
  rw [h1]
  simp only [h2, h3]

theorem providersFromConfig_readErr (env : Telemetry.Env) (sc ver path m : String)
    (h : env.readFile path = .otherErr m) :
    Telemetry.ProvidersFromConfig env sc ver path =
      (.error (.readErr m), [.readFile path]) := by
  unfold Telemetry.ProvidersFromConfig
  rw [h]

theorem setup_of_pfcError (env : Telemetry.Env) (ver path : String)
    (e : Telemetry.GoErr) (evs : List Telemetry.Event)
    (g : Option Telemetry.Providers)
    (h : Telemetry.ProvidersFromConfig env Telemetry.Scope ver path = (.error e, evs)) :
    Telemetry.Setup env ver path g = (.error e, g, evs) := by
  unfold Telemetry.Setup
  rw [h]

theorem mainStartup_of_setupError (env : Telemetry.Env)
    (e : Telemetry.GoErr) (evs : List Telemetry.Event)
    (h : Telemetry.Setup env "1.0.0" "local/otel.yaml" none = (.error e, none, evs)) :
    Telemetry.mainStartup env = .panicked := by
  unfold Telemetry.mainStartup
  rw [h]

/-- C9: when the config file exists but the YAML does not parse, or the
SDK cannot be built from it, or the file read fails with an error other
than not-exist, `Setup` returns an error — and `main`, which panics on a
`Setup` error, panics before serving any request. -/
theorem claim_C9 (env : Telemetry.Env) (ver path raw m : String)
    (conf : Telemetry.OtelConfig) :
    (env.readFile path = .ok raw →
      env.parseYAML (env.expandEnv raw) = .error m →
      (Telemetry.Setup env ver path none).1 = .error (.yamlErr m) ∧
      (path = "local/otel.yaml" → Telemetry.mainStartup env = .panicked)) ∧
    (env.readFile path = .ok raw →
      env.parseYAML (env.expandEnv raw) = .ok conf →
      env.newSDK conf = .error m →
      (Telemetry.Setup env ver path none).1 = .error (.sdkErr m) ∧
      (path = "local/otel.yaml" → Telemetry.mainStartup env = .panicked)) ∧
    (env.readFile path = .otherErr m →
      (Telemetry.Setup env ver path none).1 = .error (.readErr m) ∧
      (path = "local/otel.yaml" → Telemetry.mainStartup env = .panicked)) := by
  refine ⟨fun h1 h2 => ?_, fun h1 h2 h3 => ?_, fun h1 => ?_⟩
  · refine ⟨?_, fun hpath => ?_⟩
    · rw [setup_of_pfcError env ver path _ _ none
        (providersFromConfig_parseErr env Telemetry.Scope ver path raw m h1 h2)]
    · subst hpath
      exact mainStartup_of_setupError env _ _
        (setup_of_pfcError env "1.0.0" "local/otel.yaml" _ _ none
          (providersFromConfig_parseErr env Telemetry.Scope "1.0.0" "local/otel.yaml"
            raw m h1 h2))
  · refine ⟨?_, fun hpath => ?_⟩
    · rw [setup_of_pfcError env ver path _ _ none
        (providersFromConfig_sdkErr env Telemetry.Scope ver path raw m conf h1 h2 h3)]
    · subst hpath
      exact mainStartup_of_setupError env _ _
        (setup_of_pfcError env "1.0.0" "local/otel.yaml" _ _ none
          (providersFromConfig_sdkErr env Telemetry.Scope "1.0.0" "local/otel.yaml"
            raw m conf h1 h2 h3))
  · refine ⟨?_, fun hpath => ?_⟩
    · rw [setup_of_pfcError env ver path _ _ none
        (providersFromConfig_readErr env Telemetry.Scope ver path m h1)]
    · subst hpath
      exact mainStartup_of_setupError env _ _
        (setup_of_pfcError env "1.0.0" "local/otel.yaml" _ _ none
          (providersFromConfig_readErr env Telemetry.Scope "1.0.0" "local/otel.yaml" m h1))

/-- C9 witness: the three failure environments evaluated concretely. -/
theorem claim_C9_witness :
    (Telemetry.Setup Telemetry.envParseFail "1.0.0" "local/otel.yaml" none).1
      = .error (.yamlErr "yaml: unmarshal error") ∧
    Telemetry.mainStartup Telemetry.envParseFail = .panicked ∧
    (Telemetry.Setup Telemetry.envSDKFail "1.0.0" "local/otel.yaml" none).1
      = .error (.sdkErr "no such exporter") ∧
    Telemetry.mainStartup Telemetry.envSDKFail = .panicked ∧
    (Telemetry.Setup Telemetry.envReadFail "1.0.0" "local/otel.yaml" none).1
      = .error (.readErr "permission denied") ∧
    Telemetry.mainStartup Telemetry.envReadFail = .panicked :=
  ⟨((claim_C9 Telemetry.envParseFail "1.0.0" "local/otel.yaml" "key: $VALUE"
      "yaml: unmarshal error" ⟨0⟩).1 rfl rfl).1,
   ((claim_C9 Telemetry.envParseFail "1.0.0" "local/otel.yaml" "key: $VALUE"
      "yaml: unmarshal error" ⟨0⟩).1 rfl rfl).2 rfl,
   ((claim_C9 Telemetry.envSDKFail "1.0.0" "local/otel.yaml" "exporter: bogus"
      "no such exporter" ⟨7⟩).2.1 rfl rfl rfl).1,
   ((claim_C9 Telemetry.envSDKFail "1.0.0" "local/otel.yaml" "exporter: bogus"
      "no such exporter" ⟨7⟩).2.1 rfl rfl rfl).2 rfl,
   ((claim_C9 Telemetry.envReadFail "1.0.0" "local/otel.yaml" ""
      "permission denied" ⟨0⟩).2.2 rfl).1,
   ((claim_C9 Telemetry.envReadFail "1.0.0" "local/otel.yaml" ""
      "permission denied" ⟨0⟩).2.2 rfl).2 rfl⟩

/-- C10: whenever the config file exists, the YAML parser is called, and
the only input it is ever handed is exactly the file contents with
environment variables expanded (`os.ExpandEnv` of the raw text). -/
theorem claim_C10 (env : Telemetry.Env) (sc ver path raw : String)
    (h : env.readFile path = .ok raw) :
    Telemetry.Event.parseYAML (env.expandEnv raw) ∈
      (Telemetry.ProvidersFromConfig env sc ver path).2 ∧
    (∀ s, Telemetry.Event.parseYAML s ∈ (Telemetry.ProvidersFromConfig env sc ver path).2 →
      s = env.expandEnv raw) := by
  unfold Telemetry.ProvidersFromConfig
  rw [h]
  cases hpy : env.parseYAML (env.expandEnv raw) with
  | error m =>
    simp only [hpy]
    constructor
    · simp
    · intro s hs
      simp only [List.mem_cons, List.not_mem_nil, or_false] at hs
      rcases hs with hs | hs
      · exact absurd hs (by simp)
      · exact (Telemetry.Event.parseYAML.injEq ..).mp hs.symm |>.symm
  | ok conf =>
    cases hsdk : env.newSDK conf with
    | error m =>
      simp only [hpy, hsdk]
      constructor
      · simp
      · intro s hs
        simp only [List.mem_cons, List.not_mem_nil, or_false] at hs
        rcases hs with hs | hs | hs
        · exact absurd hs (by simp)
        · exact (Telemetry.Event.parseYAML.injEq ..).mp hs.symm |>.symm
        · exact absurd hs (by simp)
    | ok sdk =>
      simp only [hpy, hsdk]
      constructor
      · simp
      · intro s hs
        simp only [List.mem_cons, List.not_mem_nil, or_false] at hs
        rcases hs with hs | hs | hs
        · exact absurd hs (by simp)
        · exact (Telemetry.Event.parseYAML.injEq ..).mp hs.symm |>.symm
        · exact absurd hs (by simp)

/-- C10 witness at a concrete environment. -/
theorem claim_C10_witness :
    Telemetry.Event.parseYAML "key: $VALUE-expanded" ∈
      (Telemetry.ProvidersFromConfig Telemetry.envParseFail "payment-service" "1.0.0"
        "local/otel.yaml").2 :=
  (claim_C10 Telemetry.envParseFail "payment-service" "1.0.0" "local/otel.yaml"
    "key: $VALUE" rfl).1
